import Mathlib

/-
Verification of the mpy-devices core against its design description.

The development shallowly embeds the pure parts of src/mpy_devices/core.py
and the orchestration loop of src/mpy_devices/cli.py:

* strings are modelled as Lean `String` (lists of characters, compared by
  code point, which matches Python/CPython semantics for the ASCII data
  involved);
* the serial transport, the platform port enumerator and the by-id symlink
  directory are external collaborators; they are modelled as explicit
  oracle parameters (`TransportBehavior`, the `ports` list, the `byId`
  function) so that every control-flow path of the Python code becomes a
  case of a total Lean function;
* Python exceptions become `Except`-values carrying the exception class
  and message; the exception-class hierarchy is modelled separately
  (`ErrClass`) to reason about handler dispatch;
* the regular expressions used by the source are simple enough to be
  translated into direct character-list scanners (`\d` is modelled as an
  ASCII digit and `$` as "end of string, or just before a final newline",
  following CPython `re` semantics).
-/

namespace MpyDevices

/-- The single-quote character, written via its code point. -/
def squote : Char := Char.ofNat 39

/-- The double-quote character, written via its code point. -/
def dquote : Char := Char.ofNat 34

/-- The newline character, written via its code point. -/
def nl : Char := Char.ofNat 10

/-- MicroPython version information from os.uname() (core.py, `MicroPythonVersion`). -/
structure MicroPythonVersion where
  sysname : String
  release : String
  version : String
  machine : String
  nodename : Option String := none
deriving DecidableEq, Repr

/-- core.py `MicroPythonVersion.is_complete`: every required field is truthy
(non-empty) and different from the literal string "unknown". -/
def MicroPythonVersion.is_complete (v : MicroPythonVersion) : Bool :=
  (!(v.sysname == "") && !(v.sysname == "unknown")) &&
  (!(v.release == "") && !(v.release == "unknown")) &&
  (!(v.version == "") && !(v.version == "unknown")) &&
  (!(v.machine == "") && !(v.machine == "unknown"))

/-- Drop an expected pattern from the front of a character list; `none` when
the list does not start with the pattern. -/
def tryDrop : List Char → List Char → Option (List Char)
  | [], cs => some cs
  | _ :: _, [] => none
  | p :: ps, c :: cs => if c = p then tryDrop ps cs else none

/-- One attempted match of the regular expression `field=q([^q]*)q` at the
current position: the text must start with `field`, `=` and the quote `q`,
and a closing quote must exist; the captured group is everything up to the
first closing quote. -/
def matchAt (field : List Char) (q : Char) (cs : List Char) : Option (List Char) :=
  match tryDrop (field ++ ['=', q]) cs with
  | none => none
  | some rest =>
    match rest.dropWhile (fun c => c != q) with
    | [] => none
    | _ :: _ => some (rest.takeWhile (fun c => c != q))

/-- `re.search` of the pattern `field=q([^q]*)q`: try every position from the
left, first successful position wins. -/
def scanFor (field : List Char) (q : Char) : List Char → Option (List Char)
  | [] => none
  | c :: rest =>
    match matchAt field q (c :: rest) with
    | some v => some v
    | none => scanFor field q rest

/-- core.py `extract_field` (inside `parse_uname_output`): the single-quoted
pattern is searched first over the whole text; the double-quoted pattern is
tried only when the single-quoted one has no match anywhere. -/
def extract_field (text field : String) : Option String :=
  match scanFor field.data squote text.data with
  | some v => some (String.mk v)
  | none =>
    match scanFor field.data dquote text.data with
    | some v => some (String.mk v)
    | none => none

/-- Search for the earliest position at which either quoting variant of
`field=...` matches (at a fixed position at most one variant can match,
since the character after `=` decides the quote style). -/
def scanEither (field : List Char) : List Char → Option (List Char)
  | [] => none
  | c :: rest =>
    match matchAt field squote (c :: rest) with
    | some v => some v
    | none =>
      match matchAt field dquote (c :: rest) with
      | some v => some v
      | none => scanEither field rest

/-- Modelled from the claim's words (C3): field extraction where the
occurrence appearing first in the text wins, independent of quote style. -/
def extractFieldFirstOccurrence (text field : String) : Option String :=
  (scanEither field.data text.data).map String.mk

/-- Python `x or "unknown"` on an optional string: `None` and the empty
string (both falsy) are replaced by "unknown". -/
def orUnknown : Option String → String
  | some s => if s == "" then "unknown" else s
  | none => "unknown"

/-- The record built by core.py `parse_uname_output` before its
completeness check. -/
def buildVersion (output : String) : MicroPythonVersion :=
  { sysname := orUnknown (extract_field output "sysname")
    release := orUnknown (extract_field output "release")
    version := orUnknown (extract_field output "version")
    machine := orUnknown (extract_field output "machine")
    nodename := extract_field output "nodename" }

/-- core.py `parse_uname_output`: build the record, then raise `ParseError`
(here: return `Except.error` with the `ParseError` message) when the record
is incomplete. -/
def parse_uname_output (output : String) : Except String MicroPythonVersion :=
  let result := buildVersion output
  if result.is_complete then Except.ok result
  else Except.error ("Incomplete version data (one or more fields unknown): " ++ output)

/-- The effect of the `$` anchor in CPython `re.match(r"^x(\d+)$", s)`:
`$` matches at the end of the string or just before a final newline, so the
pattern effectively applies to the string with a final newline removed. -/
def shortCore (s : List Char) : List Char :=
  if s.getLast? = some nl then s.dropLast else s

/-- Match `^c0(\d+)` against an (already `$`-trimmed) character list. -/
def reMatchCore (c0 : Char) : List Char → Option (List Char)
  | [] => none
  | c :: ds => if c = c0 ∧ ds ≠ [] ∧ ds.all Char.isDigit then some ds else none

/-- CPython `re.match(r"^x(\d+)$", s)` for a fixed first character `c0`,
with `\d` modelled as an ASCII digit.  Returns the captured digit group on
success. -/
def reMatchShort (c0 : Char) (s : List Char) : Option (List Char) :=
  reMatchCore c0 (shortCore s)

/-- core.py `resolve_shortcut`: expand mpremote-style shortcuts `a<n>`,
`u<n>`, `c<n>`; any other input is returned unchanged. -/
def resolve_shortcut (device : String) : String :=
  match reMatchShort 'a' device.data with
  | some ds => String.mk ("/dev/ttyACM".data ++ ds)
  | none =>
    match reMatchShort 'u' device.data with
    | some ds => String.mk ("/dev/ttyUSB".data ++ ds)
    | none =>
      match reMatchShort 'c' device.data with
      | some ds => String.mk ("COM".data ++ ds)
      | none => device

/-- Information about a discovered device (core.py `DeviceInfo`). -/
structure DeviceInfo where
  path : String
  serial_number : Option String := none
  vid : Option Int := none
  pid : Option Int := none
  manufacturer : Option String := none
  product : Option String := none
  description : Option String := none
  hwid : Option String := none
  by_id_path : Option String := none
deriving DecidableEq, Repr

/-- Zero-pad a digit list on the left to the given width. -/
def padZeros (w : Nat) (cs : List Char) : List Char :=
  List.replicate (w - cs.length) '0' ++ cs

/-- Python `f"{n:04x}"`: lower-case hexadecimal, zero-padded to overall
width four (a negative value keeps its sign and pads the digits to three). -/
def formatHex04 (n : Int) : String :=
  if n < 0 then String.mk ('-' :: padZeros 3 (Nat.toDigits 16 n.natAbs))
  else String.mk (padZeros 4 (Nat.toDigits 16 n.toNat))

/-- core.py `DeviceInfo.vid_pid_str`: the `vid:pid` display string, present
only when both identifiers are present. -/
def DeviceInfo.vid_pid_str (d : DeviceInfo) : Option String :=
  match d.vid, d.pid with
  | some v, some p => some (formatHex04 v ++ ":" ++ formatHex04 p)
  | _, _ => none

/-- A dynamically-typed value delivered by the platform port enumerator for
the `vid`/`pid` attributes: Python `None`, an `int`, or something else. -/
inductive PyVal where
  | pynone
  | int (n : Int)
  | other
deriving DecidableEq, Repr

/-- Python `x if isinstance(x, int) else None`. -/
def PyVal.toIntIfInt : PyVal → Option Int
  | .int n => some n
  | _ => none

/-- One raw port record from the platform port enumerator
(`serial.tools.list_ports.comports()`). -/
structure PortRecord where
  device : String
  serial_number : Option String := none
  vid : PyVal := .pynone
  pid : PyVal := .pynone
  manufacturer : Option String := none
  product : Option String := none
  description : Option String := none
  hwid : Option String := none
deriving Repr

/-- Python string `<` on two character lists: lexicographic by code point,
a strict prefix is smaller. -/
def charListLt : List Char → List Char → Bool
  | [], [] => false
  | [], _ :: _ => true
  | _ :: _, [] => false
  | a :: as, b :: bs =>
    if a.toNat < b.toNat then true
    else if b.toNat < a.toNat then false
    else charListLt as bs

/-- Python string `<`. -/
def strLtB (a b : String) : Bool := charListLt a.data b.data

/-- Stable insertion for `sorted(..., key=lambda p: p.device)`: keep walking
past strictly smaller keys, insert before the first key that is not
strictly smaller. -/
def insertByDevice (p : PortRecord) : List PortRecord → List PortRecord
  | [] => [p]
  | q :: qs => if strLtB q.device p.device then q :: insertByDevice p qs else p :: q :: qs

/-- Stable sort by device path, modelling Python `sorted` with the
`p.device` key. -/
def sortPorts : List PortRecord → List PortRecord
  | [] => []
  | p :: ps => insertByDevice p (sortPorts ps)

/-- Python `s.startswith(p)`. -/
def startsWithB (s pre : String) : Bool := pre.data.isPrefixOf s.data

/-- The `DeviceInfo` built by core.py `discover_devices` for one port
record; `byId` is the oracle standing for `resolve_by_id_path`. -/
def mkDeviceInfo (byId : String → Option String) (p : PortRecord) : DeviceInfo :=
  { path := p.device
    serial_number := p.serial_number
    vid := p.vid.toIntIfInt
    pid := p.pid.toIntIfInt
    manufacturer := p.manufacturer
    product := p.product
    description := p.description
    hwid := p.hwid
    by_id_path := byId p.device }

/-- The per-port loop of core.py `discover_devices`: skip `/dev/ttyS*`
paths unless `include_ttyS`, otherwise build the `DeviceInfo`. -/
def discoverLoop (include_ttyS : Bool) (byId : String → Option String) :
    List PortRecord → List DeviceInfo
  | [] => []
  | p :: ps =>
    if !include_ttyS && startsWithB p.device "/dev/ttyS" then
      discoverLoop include_ttyS byId ps
    else
      mkDeviceInfo byId p :: discoverLoop include_ttyS byId ps

/-- core.py `discover_devices`: sort the raw port records by device path,
then filter and convert them. -/
def discover_devices (include_ttyS : Bool) (byId : String → Option String)
    (ports : List PortRecord) : List DeviceInfo :=
  discoverLoop include_ttyS byId (sortPorts ports)

/-- First loop of core.py `find_device`: exact path match against the
resolved or the original identifier. -/
def findPathLoop (resolved identifier : String) : List DeviceInfo → Option DeviceInfo
  | [] => none
  | d :: ds =>
    if d.path = resolved ∨ d.path = identifier then some d
    else findPathLoop resolved identifier ds

/-- The condition of the second loop of core.py `find_device`:
`dev.by_id_path and dev.by_id_path == device_identifier` (Python truthiness:
the stored string must be non-`None` and non-empty). -/
def byIdTruthyMatch (identifier : String) (d : DeviceInfo) : Bool :=
  match d.by_id_path with
  | some s => !(s == "") && s == identifier
  | none => false

/-- The condition of the third loop of core.py `find_device`:
`dev.serial_number and dev.serial_number == device_identifier`. -/
def serialTruthyMatch (identifier : String) (d : DeviceInfo) : Bool :=
  match d.serial_number with
  | some s => !(s == "") && s == identifier
  | none => false

/-- Second loop of core.py `find_device`. -/
def findByIdLoop (identifier : String) : List DeviceInfo → Option DeviceInfo
  | [] => none
  | d :: ds => if byIdTruthyMatch identifier d then some d else findByIdLoop identifier ds

/-- Third loop of core.py `find_device`. -/
def findSerialLoop (identifier : String) : List DeviceInfo → Option DeviceInfo
  | [] => none
  | d :: ds => if serialTruthyMatch identifier d then some d else findSerialLoop identifier ds

/-- core.py `find_device`, with the device catalog (the result of
`discover_devices(include_ttyS=True)`) passed explicitly. -/
def find_device (identifier : String) (devices : List DeviceInfo) : Option DeviceInfo :=
  let resolved := resolve_shortcut identifier
  match findPathLoop resolved identifier devices with
  | some d => some d
  | none =>
    match findByIdLoop identifier devices with
    | some d => some d
    | none => findSerialLoop identifier devices

/-- The path-match condition shared by the code and the claim. -/
def pathMatchB (identifier : String) (d : DeviceInfo) : Bool :=
  d.path == resolve_shortcut identifier || d.path == identifier

/-- Modelled from the claim's words (C7): priority search where the by-id
and serial clauses are plain equality with the identifier. -/
def findDeviceClaim (identifier : String) (devices : List DeviceInfo) : Option DeviceInfo :=
  match devices.find? (pathMatchB identifier) with
  | some d => some d
  | none =>
    match devices.find? (fun d => d.by_id_path == some identifier) with
    | some d => some d
    | none => devices.find? (fun d => d.serial_number == some identifier)

/-- Amended claim model (C7): identical priority search, but the by-id and
serial clauses additionally require the stored string to be non-empty. -/
def findDeviceAmended (identifier : String) (devices : List DeviceInfo) : Option DeviceInfo :=
  match devices.find? (pathMatchB identifier) with
  | some d => some d
  | none =>
    match devices.find? (byIdTruthyMatch identifier) with
    | some d => some d
    | none => devices.find? (serialTruthyMatch identifier)

/-- Python `s.lower()`, restricted to the per-character lowering that the
ASCII messages involved need. -/
def toLowerStr (s : String) : String := String.mk (s.data.map Char.toLower)

/-- Substring test on character lists (Python `needle in hay`). -/
def hasSubstr : List Char → List Char → Bool
  | [], needle => needle.isEmpty
  | c :: t, needle => needle.isPrefixOf (c :: t) || hasSubstr t needle

/-- The timeout test of core.py `query_device`:
`"timeout" in str(e).lower()`. -/
def mentionsTimeout (msg : String) : Bool :=
  hasSubstr (toLowerStr msg).data "timeout".data

/-- Python `s.strip()`: drop surrounding whitespace. -/
def pyStrip (s : String) : String :=
  String.mk (((s.data.dropWhile Char.isWhitespace).reverse.dropWhile Char.isWhitespace).reverse)

/-- The exception value raised by the embedded core operations: the class
and the message of the Python exception. -/
inductive DevErr where
  | deviceNotFoundErr (msg : String)
  | queryTimeoutErr (msg : String)
  | deviceErr (msg : String)
  | parseErr (msg : String)
deriving DecidableEq, Repr

/-- The `except`-handler of core.py `query_device`: a failure whose message
mentions "timeout" becomes `QueryTimeoutError`, everything else becomes a
plain `DeviceError`. -/
def classify (timeout : Nat) (msg : String) : DevErr :=
  if mentionsTimeout msg then
    DevErr.queryTimeoutErr ("Query timed out after " ++ toString timeout ++ "s: " ++ msg)
  else
    DevErr.deviceErr ("Failed to query device: " ++ msg)

/-- Oracle for one run of the serial transport: each field gives the outcome
of the corresponding transport operation (`none`/`Except.ok` = the call
returns, `some msg`/`Except.error msg` = the call raises with that message).
`closeA` is the outcome of the first `close()` call actually made during the
run, `closeB` of the second, if any. -/
structure TransportBehavior where
  connect : Option String := none
  enterRawRepl : Option String := none
  execRaw : Except String String := Except.ok ""
  exitRawRepl : Option String := none
  closeA : Option String := none
  closeB : Option String := none

/-- core.py `query_device`, as a function of the transport oracle.  The
result pairs the outcome (the raised exception or the parsed version) with
the number of `close()` calls made on the transport.  The translation
follows the source line by line: a connect failure raises
`DeviceNotFoundError` before any close; every failure inside the main `try`
runs the handler, which closes the transport once more (swallowing any
error of that close) and then classifies the caught message; the parse of
the decoded, stripped output happens inside the `try`, after the in-sequence
`close()`, so a `ParseError` is caught and re-classified like any other
failure. -/
def query_device (tb : TransportBehavior) (device_path : String) (timeout : Nat) :
    Except DevErr MicroPythonVersion × Nat :=
  match tb.connect with
  | some e =>
    (Except.error (DevErr.deviceNotFoundErr ("Failed to connect to " ++ device_path ++ ": " ++ e)), 0)
  | none =>
    match tb.enterRawRepl with
    | some e => (Except.error (classify timeout e), 1)
    | none =>
      match tb.execRaw with
      | Except.error e => (Except.error (classify timeout e), 1)
      | Except.ok out =>
        match tb.exitRawRepl with
        | some e => (Except.error (classify timeout e), 1)
        | none =>
          match tb.closeA with
          | some ce => (Except.error (classify timeout ce), 2)
          | none =>
            match parse_uname_output (pyStrip out) with
            | Except.ok v => (Except.ok v, 1)
            | Except.error m => (Except.error (classify timeout m), 2)

/-- Oracle for one run of cli.py `check_all_devices`: the discovered
devices, the outcome of the first-pass query per device path, the
re-resolution of a path via `find_device`, and the outcome of the
retry-pass query per device path. -/
structure OrchWorld where
  devices : List DeviceInfo
  query1 : String → Except DevErr MicroPythonVersion
  find2 : String → Option DeviceInfo
  query2 : String → Except DevErr MicroPythonVersion

/-- Whether an `Except` is an error. -/
def isErrB : Except ε α → Bool
  | Except.error _ => true
  | Except.ok _ => false

/-- First pass of cli.py `check_all_devices`: collect, in order, the paths
of the devices whose query raised. -/
def failedPaths (q1 : String → Except DevErr MicroPythonVersion) :
    List DeviceInfo → List String
  | [] => []
  | d :: ds =>
    match q1 d.path with
    | Except.ok _ => failedPaths q1 ds
    | Except.error _ => d.path :: failedPaths q1 ds

/-- Retry pass of cli.py `check_all_devices`: re-resolve each failed path;
a path that `find_device` no longer locates is skipped (`continue`); a
re-resolved device is queried once at its (possibly new) path and counted
when it fails again. -/
def retryCount (find2 : String → Option DeviceInfo)
    (q2 : String → Except DevErr MicroPythonVersion) : List String → Nat
  | [] => 0
  | p :: ps =>
    match find2 p with
    | none => retryCount find2 q2 ps
    | some dev =>
      match q2 dev.path with
      | Except.ok _ => retryCount find2 q2 ps
      | Except.error _ => retryCount find2 q2 ps + 1

/-- cli.py `check_all_devices`: returns the number of devices still failing
after the single retry pass. -/
def check_all_devices (w : OrchWorld) : Nat :=
  if w.devices.isEmpty then 0
  else
    let failed := failedPaths w.query1 w.devices
    if failed.isEmpty then 0
    else retryCount w.find2 w.query2 failed

/-- The exception classes defined at the top of core.py. -/
inductive ErrClass where
  | deviceErrorCls
  | deviceNotFoundCls
  | queryTimeoutCls
  | parseErrorCls
deriving DecidableEq, Repr

/-- The superclass declared for each class in core.py: `DeviceError`
derives from `Exception` (outside this model), the other three derive from
`DeviceError`. -/
def parentClass : ErrClass → Option ErrClass
  | ErrClass.deviceErrorCls => none
  | _ => some ErrClass.deviceErrorCls

/-- Python `issubclass`/`isinstance` over the modelled hierarchy (the
hierarchy has depth one, so the reflexive-transitive closure is one step). -/
def isSubclassOf (c d : ErrClass) : Bool :=
  c == d ||
    match parentClass c with
    | some p => p == d
    | none => false

/-- The class of each raisable exception value. -/
def classOf : DevErr → ErrClass
  | DevErr.deviceNotFoundErr _ => ErrClass.deviceNotFoundCls
  | DevErr.queryTimeoutErr _ => ErrClass.queryTimeoutCls
  | DevErr.deviceErr _ => ErrClass.deviceErrorCls
  | DevErr.parseErr _ => ErrClass.parseErrorCls

/-- Python `except`-clause dispatch: the first handler whose class the
raised exception is an instance of catches it. -/
def firstHandler (cls : ErrClass) : List ErrClass → Option ErrClass
  | [] => none
  | h :: hs => if isSubclassOf cls h then some h else firstHandler cls hs

/-- The non-strict order "a's device path is not greater than b's" used to
state sortedness of the catalog. -/
def portPathLe (a b : PortRecord) : Prop := strLtB b.device a.device = false

/-- Concrete transport run for C1: everything succeeds, but the device
prints output that is not a well-formed uname record. -/
def tbGarbage : TransportBehavior := { execRaw := Except.ok "garbage" }

/-- Concrete transport run for C9: the handshake and the command succeed
and the output is perfectly parseable, but the in-sequence `close()` call
raises. -/
def tbCloseFail : TransportBehavior :=
  { execRaw := Except.ok "(sysname='p', release='1', version='v', machine='m')"
    closeA := some "close failed" }

/-- Concrete transport run used as a witness: a fully successful query. -/
def tbAllOk : TransportBehavior :=
  { execRaw := Except.ok "(sysname='p', release='1', version='v', machine='m')" }

/-- Concrete device for the C7 counterexample: a catalog entry whose
serial-number attribute is present but empty. -/
def devEmptySerial : DeviceInfo := { path := "/dev/ttyACM0", serial_number := some "" }

/-- Concrete port record for the C8 counterexample: the enumerator reports
an integral vendor id but no product id. -/
def portVidOnly : PortRecord := { device := "/dev/ttyACM0", vid := PyVal.int 5 }

/-- Claim C10: every error class of core.py is a subclass of the root class
`DeviceError`, so the four kinds are not disjoint: a handler for
`DeviceError` catches every classified failure, and a `ParseError` handler
placed after a `DeviceError` handler is never selected. -/
theorem c10_error_hierarchy :
    (∀ e : DevErr, isSubclassOf (classOf e) ErrClass.deviceErrorCls = true)
    ∧ (∀ e : DevErr,
        firstHandler (classOf e) [ErrClass.deviceErrorCls, ErrClass.parseErrorCls] =
          some ErrClass.deviceErrorCls)
    ∧ (isSubclassOf ErrClass.parseErrorCls ErrClass.deviceErrorCls = true
        ∧ ErrClass.parseErrorCls ≠ ErrClass.deviceErrorCls)
    ∧ (∀ c : ErrClass, isSubclassOf c ErrClass.deviceErrorCls = true) := by
  refine ⟨fun e => ?_, fun e => ?_, ⟨rfl, by decide⟩, fun c => ?_⟩
  · cases e <;> rfl
  · cases e <;> rfl
  · cases c <;> rfl

/-- Claim C2: `parse_uname_output` is total; for every input string it
either returns a record whose four required fields are non-empty and
different from "unknown", or it fails with the `ParseError` message that
carries the raw text. -/
theorem c2_parse_total (output : String) :
    (∃ v, parse_uname_output output = Except.ok v ∧
      v.sysname ≠ "" ∧ v.sysname ≠ "unknown" ∧
      v.release ≠ "" ∧ v.release ≠ "unknown" ∧
      v.version ≠ "" ∧ v.version ≠ "unknown" ∧
      v.machine ≠ "" ∧ v.machine ≠ "unknown")
    ∨ parse_uname_output output =
        Except.error ("Incomplete version data (one or more fields unknown): " ++ output) := by
  by_cases h : (buildVersion output).is_complete = true
  · left
    refine ⟨buildVersion output, by simp [parse_uname_output, h], ?_⟩
    have h' := h
    simp only [MicroPythonVersion.is_complete, Bool.and_eq_true, Bool.not_eq_true',
      beq_eq_false_iff_ne] at h'
    tauto
  · right
    simp [parse_uname_output, h]

/-- Claim C1 (code bug): when the transport works but the device's output is
not a well-formed record, `query_device` does not let the `ParseError`
escape — the parse happens inside the guarded block, so the `ParseError`
is caught and re-raised as a plain `DeviceError`, contradicting the
function's own docstring ("Raises: ParseError: Failed to parse response")
and making the `ParseError` handler in cli.py unreachable for
`query_device` failures. -/
theorem c1_parse_error_wrapped :
    (query_device tbGarbage "/dev/ttyACM0" 5).1 =
      Except.error (DevErr.deviceErr
        ("Failed to query device: " ++
          "Incomplete version data (one or more fields unknown): garbage"))
    ∧ ∀ msg, classOf (DevErr.deviceErr msg) ≠ ErrClass.parseErrorCls := by
  exact ⟨rfl, fun msg => by simp [classOf]⟩

/-- Counterexample to claim C3: in the text `sysname="a" sysname='b'` the
double-quoted occurrence appears first, yet the code returns the value of
the later single-quoted occurrence, because the single-quoted pattern is
searched over the whole text before the double-quoted one is tried at
all. -/
theorem c3_counterexample :
    extract_field "sysname=\"a\" sysname='b'" "sysname" = some "b"
    ∧ extractFieldFirstOccurrence "sysname=\"a\" sysname='b'" "sysname" = some "a"
    ∧ ("b" : String) ≠ "a" := ⟨rfl, rfl, by decide⟩

/-- Counterexample to claim C7: with the empty identifier and a catalog
device whose serial number is the empty string, the claim's "serial number
equals the identifier" clause holds, yet `find_device` returns `none`,
because the code additionally requires the stored string to be truthy
(non-empty). -/
theorem c7_counterexample :
    find_device "" [devEmptySerial] = none
    ∧ findDeviceClaim "" [devEmptySerial] = some devEmptySerial := ⟨rfl, rfl⟩

/-- Counterexample to claim C9: on a run where the handshake and command
succeed and the in-sequence `close()` raises, the transport is closed
twice (the failing call plus the handler's cleanup call), and the close
failure is classified and raised as the query's error instead of being
swallowed. -/
theorem c9_counterexample :
    (query_device tbCloseFail "/dev/ttyACM0" 5).2 = 2
    ∧ (query_device tbCloseFail "/dev/ttyACM0" 5).1 =
        Except.error (DevErr.deviceErr "Failed to query device: close failed") := ⟨rfl, rfl⟩

/-- Counterexample to claim C8: discovery constructs, from a port record
with an integral vendor id and an absent product id, a device record with
exactly one of the two ids set. -/
theorem c8_counterexample :
    discover_devices true (fun _ => none) [portVidOnly] =
      [mkDeviceInfo (fun _ => none) portVidOnly]
    ∧ (mkDeviceInfo (fun _ => none) portVidOnly).vid = some 5
    ∧ (mkDeviceInfo (fun _ => none) portVidOnly).pid = none := ⟨rfl, rfl, rfl⟩

/-- Claim C8 as amended: the vendor and product ids are each kept exactly
when the platform delivered an integer, independently of one another; it is
the `vid:pid` display string that is present exactly when both ids are
present. -/
theorem c8_vid_pid_amended (byId : String → Option String) (p : PortRecord) :
    (mkDeviceInfo byId p).vid = p.vid.toIntIfInt
    ∧ (mkDeviceInfo byId p).pid = p.pid.toIntIfInt
    ∧ ((mkDeviceInfo byId p).vid_pid_str ≠ none ↔
        (mkDeviceInfo byId p).vid ≠ none ∧ (mkDeviceInfo byId p).pid ≠ none) := by
  refine ⟨rfl, rfl, ?_⟩
  cases hv : p.vid.toIntIfInt <;> cases hp : p.pid.toIntIfInt <;>
    simp [DeviceInfo.vid_pid_str, mkDeviceInfo, hv, hp]

/-- Witness for the amended C8 at a concrete input. -/
theorem c8_vid_pid_amended_witness :
    (mkDeviceInfo (fun _ => none) portVidOnly).vid = portVidOnly.vid.toIntIfInt :=
  (c8_vid_pid_amended (fun _ => none) portVidOnly).1

theorem failedPaths_eq (q1 : String → Except DevErr MicroPythonVersion)
    (l : List DeviceInfo) :
    failedPaths q1 l = (l.map DeviceInfo.path).filter (fun p => isErrB (q1 p)) := by
  induction l with
  | nil => rfl
  | cons d ds ih =>
    simp only [failedPaths, List.map_cons, List.filter_cons]
    cases hq : q1 d.path <;> simp [isErrB, hq, ih]

theorem retryCount_eq (find2 : String → Option DeviceInfo)
    (q2 : String → Except DevErr MicroPythonVersion) (l : List String) :
    retryCount find2 q2 l =
      ((l.filterMap find2).filter (fun d => isErrB (q2 d.path))).length := by
  induction l with
  | nil => rfl
  | cons p ps ih =>
    simp only [retryCount, List.filterMap_cons]
    cases hf : find2 p with
    | none => simp [ih]
    | some dev =>
      cases hq : q2 dev.path <;> simp [isErrB, hq, ih, List.filter_cons]

/-- Claim C4: the final failure count of the multi-device pass equals
exactly the number of first-pass failures that `find_device` still locates
and that fail again on their single retry; a failed device that is no
longer found is dropped from the retry set and not counted, and no third
pass exists (the count is a function of one first-pass and one retry-pass
outcome per device). -/
theorem c4_retry_count (w : OrchWorld) :
    check_all_devices w =
      ((((w.devices.map DeviceInfo.path).filter (fun p => isErrB (w.query1 p))).filterMap
          w.find2).filter (fun d => isErrB (w.query2 d.path))).length := by
  simp only [check_all_devices, failedPaths_eq, retryCount_eq]
  by_cases h1 : w.devices.isEmpty
  · have : w.devices = [] := List.isEmpty_iff.mp h1
    simp [h1, this]
  · simp only [h1, if_false]
    by_cases h2 :
        ((w.devices.map DeviceInfo.path).filter (fun p => isErrB (w.query1 p))).isEmpty
    · have : (w.devices.map DeviceInfo.path).filter (fun p => isErrB (w.query1 p)) = [] :=
        List.isEmpty_iff.mp h2
      simp [h2, this]
    · simp [h2]

theorem digitsLast_ne_nl (l : List Char) (h : l.all Char.isDigit = true) :
    l.getLast? ≠ some nl := by
  intro hc
  obtain ⟨hne, hEq⟩ := List.mem_getLast?_eq_getLast (Option.mem_def.mpr hc)
  have hmem : nl ∈ l := by
    rw [hEq]
    exact List.getLast_mem hne
  have := List.all_eq_true.mp h nl hmem
  exact absurd this (by decide)

theorem shortCore_of_last_ne (s : List Char) (h : ¬ s.getLast? = some nl) :
    shortCore s = s := if_neg h

theorem reMatchShort_match (c0 : Char) (ds : List Char)
    (h1 : ds ≠ []) (h2 : ds.all Char.isDigit = true) :
    reMatchShort c0 (c0 :: ds) = some ds := by
  have hlast : ¬ (c0 :: ds).getLast? = some nl := by
    cases ds with
    | nil => exact absurd rfl h1
    | cons d ds' =>
      rw [List.getLast?_cons_cons]
      exact digitsLast_ne_nl (d :: ds') h2
  rw [reMatchShort, shortCore_of_last_ne _ hlast, reMatchCore]
  simp [h1, h2]

theorem reMatchShort_none_of_head (c0 x : Char) (xs : List Char)
    (hx : x ≠ c0) (hlast : ¬ (x :: xs).getLast? = some nl) :
    reMatchShort c0 (x :: xs) = none := by
  rw [reMatchShort, shortCore_of_last_ne _ hlast, reMatchCore]
  simp [hx]

theorem reMatchCore_some_props {c0 : Char} {l ds : List Char}
    (h : reMatchCore c0 l = some ds) : ds ≠ [] ∧ ds.all Char.isDigit = true := by
  cases l with
  | nil => exact absurd h (by simp [reMatchCore])
  | cons c ds' =>
    rw [reMatchCore] at h
    by_cases hcond : c = c0 ∧ ds' ≠ [] ∧ ds'.all Char.isDigit = true
    · rw [if_pos hcond] at h
      cases h
      exact ⟨hcond.2.1, hcond.2.2⟩
    · rw [if_neg hcond] at h
      cases h

theorem reMatchShort_some_props {c0 : Char} {s ds : List Char}
    (h : reMatchShort c0 s = some ds) : ds ≠ [] ∧ ds.all Char.isDigit = true :=
  reMatchCore_some_props h

theorem consDigits_last_ne_nl (x : Char) (ds : List Char)
    (h1 : ds ≠ []) (h2 : ds.all Char.isDigit = true) :
    ¬ (x :: ds).getLast? = some nl := by
  cases ds with
  | nil => exact absurd rfl h1
  | cons d ds' =>
    rw [List.getLast?_cons_cons]
    exact digitsLast_ne_nl _ h2

theorem resolve_shortcut_data_none (s : String)
    (ha : reMatchShort 'a' s.data = none) (hu : reMatchShort 'u' s.data = none)
    (hc : reMatchShort 'c' s.data = none) :
    resolve_shortcut s = s := by
  rw [resolve_shortcut, ha, hu, hc]

theorem resolve_shortcut_a (ds : List Char)
    (h1 : ds ≠ []) (h2 : ds.all Char.isDigit = true) :
    resolve_shortcut (String.mk ('a' :: ds)) = String.mk ("/dev/ttyACM".data ++ ds) := by
  have hd : (String.mk ('a' :: ds)).data = 'a' :: ds := rfl
  rw [resolve_shortcut, hd, reMatchShort_match _ _ h1 h2]

theorem resolve_shortcut_u (ds : List Char)
    (h1 : ds ≠ []) (h2 : ds.all Char.isDigit = true) :
    resolve_shortcut (String.mk ('u' :: ds)) = String.mk ("/dev/ttyUSB".data ++ ds) := by
  have hd : (String.mk ('u' :: ds)).data = 'u' :: ds := rfl
  have hlast := consDigits_last_ne_nl 'u' ds h1 h2
  rw [resolve_shortcut, hd, reMatchShort_none_of_head _ _ _ (by decide) hlast,
    reMatchShort_match _ _ h1 h2]

theorem resolve_shortcut_c (ds : List Char)
    (h1 : ds ≠ []) (h2 : ds.all Char.isDigit = true) :
    resolve_shortcut (String.mk ('c' :: ds)) = String.mk ("COM".data ++ ds) := by
  have hd : (String.mk ('c' :: ds)).data = 'c' :: ds := rfl
  have hlast := consDigits_last_ne_nl 'c' ds h1 h2
  rw [resolve_shortcut, hd, reMatchShort_none_of_head _ _ _ (by decide) hlast,
    reMatchShort_none_of_head _ _ _ (by decide) hlast,
    reMatchShort_match _ _ h1 h2]

theorem reMatchShort_none_of_head_append (c0 x : Char) (xs ds : List Char)
    (hx : x ≠ c0) (h1 : ds ≠ []) (h2 : ds.all Char.isDigit = true) :
    reMatchShort c0 (x :: (xs ++ ds)) = none := by
  apply reMatchShort_none_of_head _ _ _ hx
  rw [show x :: (xs ++ ds) = (x :: xs) ++ ds from rfl,
    List.getLast?_append_of_ne_nil _ h1]
  exact digitsLast_ne_nl _ h2

theorem resolve_shortcut_fix_of_head (x : Char) (xs ds : List Char)
    (hxa : x ≠ 'a') (hxu : x ≠ 'u') (hxc : x ≠ 'c')
    (h1 : ds ≠ []) (h2 : ds.all Char.isDigit = true) :
    resolve_shortcut (String.mk (x :: (xs ++ ds))) = String.mk (x :: (xs ++ ds)) := by
  apply resolve_shortcut_data_none
  · exact reMatchShort_none_of_head_append _ _ _ _ hxa h1 h2
  · exact reMatchShort_none_of_head_append _ _ _ _ hxu h1 h2
  · exact reMatchShort_none_of_head_append _ _ _ _ hxc h1 h2

theorem resolve_shortcut_idem (s : String) :
    resolve_shortcut (resolve_shortcut s) = resolve_shortcut s := by
  cases ha : reMatchShort 'a' s.data with
  | some ds =>
    obtain ⟨h1, h2⟩ := reMatchShort_some_props ha
    have hs : resolve_shortcut s = String.mk ("/dev/ttyACM".data ++ ds) := by
      rw [resolve_shortcut, ha]
    rw [hs, show "/dev/ttyACM".data ++ ds = '/' :: ("dev/ttyACM".data ++ ds) from rfl]
    exact resolve_shortcut_fix_of_head _ _ _ (by decide) (by decide) (by decide) h1 h2
  | none =>
    cases hu : reMatchShort 'u' s.data with
    | some ds =>
      obtain ⟨h1, h2⟩ := reMatchShort_some_props hu
      have hs : resolve_shortcut s = String.mk ("/dev/ttyUSB".data ++ ds) := by
        rw [resolve_shortcut, ha, hu]
      rw [hs, show "/dev/ttyUSB".data ++ ds = '/' :: ("dev/ttyUSB".data ++ ds) from rfl]
      exact resolve_shortcut_fix_of_head _ _ _ (by decide) (by decide) (by decide) h1 h2
    | none =>
      cases hcm : reMatchShort 'c' s.data with
      | some ds =>
        obtain ⟨h1, h2⟩ := reMatchShort_some_props hcm
        have hs : resolve_shortcut s = String.mk ("COM".data ++ ds) := by
          rw [resolve_shortcut, ha, hu, hcm]
        rw [hs, show "COM".data ++ ds = 'C' :: ("OM".data ++ ds) from rfl]
        exact resolve_shortcut_fix_of_head _ _ _ (by decide) (by decide) (by decide) h1 h2
      | none =>
        rw [resolve_shortcut_data_none s ha hu hcm, resolve_shortcut_data_none s ha hu hcm]

/-- Claim C5: `resolve_shortcut` maps `a<digits>` to `/dev/ttyACM<digits>`,
`u<digits>` to `/dev/ttyUSB<digits>` and `c<digits>` to `COM<digits>`,
returns every token matching none of the three patterns unchanged, and is
idempotent. -/
theorem c5_resolve_shortcut_spec :
    (∀ ds : List Char, ds ≠ [] → ds.all Char.isDigit = true →
      resolve_shortcut (String.mk ('a' :: ds)) = String.mk ("/dev/ttyACM".data ++ ds)
      ∧ resolve_shortcut (String.mk ('u' :: ds)) = String.mk ("/dev/ttyUSB".data ++ ds)
      ∧ resolve_shortcut (String.mk ('c' :: ds)) = String.mk ("COM".data ++ ds))
    ∧ (∀ s : String, reMatchShort 'a' s.data = none → reMatchShort 'u' s.data = none →
        reMatchShort 'c' s.data = none → resolve_shortcut s = s)
    ∧ (∀ s : String, resolve_shortcut (resolve_shortcut s) = resolve_shortcut s) :=
  ⟨fun ds h1 h2 =>
    ⟨resolve_shortcut_a ds h1 h2, resolve_shortcut_u ds h1 h2, resolve_shortcut_c ds h1 h2⟩,
   resolve_shortcut_data_none, resolve_shortcut_idem⟩

/-- Witness for C5 at concrete inputs: the shortcut `a0` and the
non-matching token `hello`. -/
theorem c5_resolve_shortcut_spec_witness :
    resolve_shortcut (String.mk ['a', '0']) = String.mk ("/dev/ttyACM".data ++ ['0'])
    ∧ resolve_shortcut "hello" = "hello" :=
  ⟨(c5_resolve_shortcut_spec.1 ['0'] (by decide) (by decide)).1,
   c5_resolve_shortcut_spec.2.1 "hello" (by decide) (by decide) (by decide)⟩

theorem findPathLoop_eq (resolved identifier : String) (l : List DeviceInfo) :
    findPathLoop resolved identifier l =
      l.find? (fun d => d.path == resolved || d.path == identifier) := by
  induction l with
  | nil => rfl
  | cons d ds ih =>
    by_cases h : d.path = resolved ∨ d.path = identifier
    · have hb : (d.path == resolved || d.path == identifier) = true := by
        rcases h with h | h <;> simp [h]
      rw [findPathLoop, if_pos h]
      exact (@List.find?_cons_of_pos DeviceInfo
        (fun e => e.path == resolved || e.path == identifier) d ds hb).symm
    · have hb : ¬ (d.path == resolved || d.path == identifier) = true := by
        push_neg at h
        simp [h.1, h.2]
      rw [findPathLoop, if_neg h, ih]
      exact (@List.find?_cons_of_neg DeviceInfo
        (fun e => e.path == resolved || e.path == identifier) d ds hb).symm

theorem findByIdLoop_eq (identifier : String) (l : List DeviceInfo) :
    findByIdLoop identifier l = l.find? (byIdTruthyMatch identifier) := by
  induction l with
  | nil => rfl
  | cons d ds ih =>
    by_cases h : byIdTruthyMatch identifier d = true
    · rw [findByIdLoop, if_pos h]
      exact (List.find?_cons_of_pos _ h).symm
    · rw [findByIdLoop, if_neg h, ih]
      exact (List.find?_cons_of_neg _ h).symm

theorem findSerialLoop_eq (identifier : String) (l : List DeviceInfo) :
    findSerialLoop identifier l = l.find? (serialTruthyMatch identifier) := by
  induction l with
  | nil => rfl
  | cons d ds ih =>
    by_cases h : serialTruthyMatch identifier d = true
    · rw [findSerialLoop, if_pos h]
      exact (List.find?_cons_of_pos _ h).symm
    · rw [findSerialLoop, if_neg h, ih]
      exact (List.find?_cons_of_neg _ h).symm

theorem find_device_eq_amended (identifier : String) (devices : List DeviceInfo) :
    find_device identifier devices = findDeviceAmended identifier devices := by
  simp only [find_device, findDeviceAmended, findPathLoop_eq, findByIdLoop_eq,
    findSerialLoop_eq]
  rfl

theorem findDeviceAmended_eq_none_iff (identifier : String) (devices : List DeviceInfo) :
    findDeviceAmended identifier devices = none ↔
      ∀ d ∈ devices, pathMatchB identifier d = false ∧ byIdTruthyMatch identifier d = false ∧
        serialTruthyMatch identifier d = false := by
  rw [findDeviceAmended]
  cases h1 : devices.find? (pathMatchB identifier) with
  | some d =>
    constructor
    · intro h
      exact absurd h (by simp)
    · intro hall
      have hp := List.find?_some h1
      rw [(hall d (List.mem_of_find?_eq_some h1)).1] at hp
      cases hp
  | none =>
    cases h2 : devices.find? (byIdTruthyMatch identifier) with
    | some d =>
      constructor
      · intro h
        exact absurd h (by simp)
      · intro hall
        have hp := List.find?_some h2
        rw [(hall d (List.mem_of_find?_eq_some h2)).2.1] at hp
        cases hp
    | none =>
      cases h3 : devices.find? (serialTruthyMatch identifier) with
      | some d =>
        constructor
        · intro h
          exact absurd h (by simp)
        · intro hall
          have hp := List.find?_some h3
          rw [(hall d (List.mem_of_find?_eq_some h3)).2.2] at hp
          cases hp
      | none =>
        simp only [List.find?_eq_none] at h1 h2 h3
        constructor
        · intro _ d hd
          exact ⟨by simpa using h1 d hd, by simpa using h2 d hd, by simpa using h3 d hd⟩
        · intro _
          rfl

/-- Claim C7 as amended: `find_device` searches the catalog in the priority
order path match (resolved or original identifier), then stable by-id
match, then serial-number match, first match winning and `none` when no
device matches — where the by-id and serial clauses require the stored
string to be non-empty in addition to equalling the identifier. -/
theorem c7_find_device_priority (identifier : String) (devices : List DeviceInfo) :
    find_device identifier devices = findDeviceAmended identifier devices
    ∧ (find_device identifier devices = none ↔
        ∀ d ∈ devices, pathMatchB identifier d = false ∧ byIdTruthyMatch identifier d = false ∧
          serialTruthyMatch identifier d = false) := by
  refine ⟨find_device_eq_amended identifier devices, ?_⟩
  rw [find_device_eq_amended identifier devices]
  exact findDeviceAmended_eq_none_iff identifier devices

/-- Witness for C7 at a concrete input: the empty catalog matches nothing. -/
theorem c7_find_device_priority_witness :
    find_device "x" ([] : List DeviceInfo) = none :=
  (c7_find_device_priority "x" []).2.mpr (by simp)

theorem charListLt_asymm : ∀ (a b : List Char),
    charListLt a b = true → charListLt b a = false := by
  intro a
  induction a with
  | nil =>
    intro b h
    cases b with
    | nil => simp [charListLt] at h
    | cons y ys => simp [charListLt]
  | cons x xs ih =>
    intro b h
    cases b with
    | nil => simp [charListLt] at h
    | cons y ys =>
      rw [charListLt] at h ⊢
      by_cases h1 : x.toNat < y.toNat
      · rw [if_neg (by omega), if_pos h1]
      · by_cases h2 : y.toNat < x.toNat
        · rw [if_neg h1, if_pos h2] at h
          cases h
        · rw [if_neg h1, if_neg h2] at h
          rw [if_neg h2, if_neg h1]
          exact ih ys h

theorem charListLt_le_trans : ∀ (a b c : List Char),
    charListLt b a = false → charListLt c b = false → charListLt c a = false := by
  intro a
  induction a with
  | nil =>
    intro b c _ _
    cases c <;> simp [charListLt]
  | cons x xs ih =>
    intro b c h1 h2
    cases b with
    | nil => simp [charListLt] at h1
    | cons y ys =>
      cases c with
      | nil => simp [charListLt] at h2
      | cons z zs =>
        rw [charListLt] at h1 h2 ⊢
        by_cases hyx : y.toNat < x.toNat
        · rw [if_pos hyx] at h1
          cases h1
        · by_cases hzy : z.toNat < y.toNat
          · rw [if_pos hzy] at h2
            cases h2
          · rw [if_neg (show ¬ z.toNat < x.toNat by omega)]
            by_cases hxz : x.toNat < z.toNat
            · rw [if_pos hxz]
            · rw [if_neg hxz]
              rw [if_neg hyx, if_neg (show ¬ x.toNat < y.toNat by omega)] at h1
              rw [if_neg hzy, if_neg (show ¬ y.toNat < z.toNat by omega)] at h2
              exact ih ys zs h1 h2

theorem mem_insertByDevice {p r : PortRecord} :
    ∀ {l : List PortRecord}, r ∈ insertByDevice p l → r = p ∨ r ∈ l := by
  intro l
  induction l with
  | nil =>
    intro h
    rw [insertByDevice] at h
    exact Or.inl (List.mem_singleton.mp h)
  | cons q qs ih =>
    intro h
    rw [insertByDevice] at h
    by_cases hq : strLtB q.device p.device = true
    · rw [if_pos hq] at h
      rcases List.mem_cons.mp h with rfl | h'
      · exact Or.inr (List.mem_cons_self _ _)
      · rcases ih h' with h'' | h''
        · exact Or.inl h''
        · exact Or.inr (List.mem_cons_of_mem _ h'')
    · rw [if_neg hq] at h
      rcases List.mem_cons.mp h with rfl | h'
      · exact Or.inl rfl
      · exact Or.inr h'

theorem pairwise_insertByDevice (p : PortRecord) (l : List PortRecord)
    (h : l.Pairwise portPathLe) : (insertByDevice p l).Pairwise portPathLe := by
  induction l with
  | nil => simp [insertByDevice]
  | cons q qs ih =>
    rw [insertByDevice]
    rw [List.pairwise_cons] at h
    by_cases hq : strLtB q.device p.device = true
    · rw [if_pos hq, List.pairwise_cons]
      constructor
      · intro r hr
        rcases mem_insertByDevice hr with rfl | hr'
        · exact charListLt_asymm _ _ hq
        · exact h.1 r hr'
      · exact ih h.2
    · rw [if_neg hq, List.pairwise_cons]
      constructor
      · intro r hr
        rcases List.mem_cons.mp hr with rfl | hr'
        · exact Bool.eq_false_iff.mpr hq
        · exact charListLt_le_trans p.device.data q.device.data r.device.data
            (Bool.eq_false_iff.mpr hq) (h.1 r hr')
      · rw [List.pairwise_cons]
        exact h

theorem insertByDevice_perm (p : PortRecord) (l : List PortRecord) :
    (insertByDevice p l).Perm (p :: l) := by
  induction l with
  | nil => exact List.Perm.refl _
  | cons q qs ih =>
    rw [insertByDevice]
    by_cases hq : strLtB q.device p.device = true
    · rw [if_pos hq]
      exact (List.Perm.cons q ih).trans (List.Perm.swap p q qs)
    · rw [if_neg hq]

theorem sortPorts_perm (l : List PortRecord) : (sortPorts l).Perm l := by
  induction l with
  | nil => exact List.Perm.refl _
  | cons p ps ih =>
    rw [sortPorts]
    exact (insertByDevice_perm p (sortPorts ps)).trans (List.Perm.cons p ih)

theorem sortPorts_pairwise (l : List PortRecord) : (sortPorts l).Pairwise portPathLe := by
  induction l with
  | nil => exact List.Pairwise.nil
  | cons p ps ih => exact pairwise_insertByDevice p _ ih

theorem discoverLoop_true (byId : String → Option String) (l : List PortRecord) :
    discoverLoop true byId l = l.map (mkDeviceInfo byId) := by
  induction l with
  | nil => rfl
  | cons p ps ih => simp [discoverLoop, ih]

theorem discoverLoop_false (byId : String → Option String) (l : List PortRecord) :
    discoverLoop false byId l =
      (discoverLoop true byId l).filter (fun d => !(startsWithB d.path "/dev/ttyS")) := by
  induction l with
  | nil => rfl
  | cons p ps ih =>
    have hpath : (mkDeviceInfo byId p).path = p.device := rfl
    cases hp : startsWithB p.device "/dev/ttyS" with
    | true => simp [discoverLoop, hp, ih, List.filter_cons, hpath]
    | false => simp [discoverLoop, hp, ih, List.filter_cons, hpath]

/-- Claim C6: with the default flag, discovery excludes exactly the ports
whose path starts with `/dev/ttyS` (the result is the filtered version of
the full catalog, so filtering never reorders); with the flag set, every
port survives (the result is a permutation-image of the input); in both
cases the result is sorted by device path in ascending lexicographic
order; vendor and product ids are kept exactly when the platform value is
an integer. -/
theorem c6_discover_devices_spec (byId : String → Option String) (ports : List PortRecord) :
    (discover_devices false byId ports =
      (discover_devices true byId ports).filter (fun d => !(startsWithB d.path "/dev/ttyS")))
    ∧ discover_devices true byId ports = (sortPorts ports).map (mkDeviceInfo byId)
    ∧ (discover_devices true byId ports).Perm (ports.map (mkDeviceInfo byId))
    ∧ (∀ b : Bool, (discover_devices b byId ports).Pairwise
        (fun x y => strLtB y.path x.path = false))
    ∧ (∀ p : PortRecord, (mkDeviceInfo byId p).vid = p.vid.toIntIfInt ∧
        (mkDeviceInfo byId p).pid = p.pid.toIntIfInt) := by
  refine ⟨?_, ?_, ?_, ?_, fun p => ⟨rfl, rfl⟩⟩
  · rw [discover_devices, discover_devices, discoverLoop_false]
  · rw [discover_devices, discoverLoop_true]
  · rw [discover_devices, discoverLoop_true]
    exact List.Perm.map _ (sortPorts_perm ports)
  · intro b
    have hmap : ((sortPorts ports).map (mkDeviceInfo byId)).Pairwise
        (fun x y => strLtB y.path x.path = false) :=
      List.Pairwise.map _ (fun a c hac => hac) (sortPorts_pairwise ports)
    cases b with
    | true =>
      rw [discover_devices, discoverLoop_true]
      exact hmap
    | false =>
      rw [discover_devices, discoverLoop_false, discoverLoop_true]
      exact List.Pairwise.sublist (List.filter_sublist _) hmap

theorem matchAt_nil (f : List Char) (q : Char) : matchAt f q [] = none := by
  cases f <;> rfl

theorem scanFor_eq_some_iff (f : List Char) (q : Char) :
    ∀ (cs : List Char), ∀ (v : List Char), scanFor f q cs = some v ↔
      ∃ i, matchAt f q (cs.drop i) = some v ∧
        ∀ j, j < i → matchAt f q (cs.drop j) = none := by
  intro cs
  induction cs with
  | nil =>
    intro v
    constructor
    · intro h
      simp [scanFor] at h
    · rintro ⟨i, hi, _⟩
      rw [List.drop_nil, matchAt_nil] at hi
      cases hi
  | cons c rest ih =>
    intro v
    rw [scanFor]
    cases hm : matchAt f q (c :: rest) with
    | some w =>
      constructor
      · intro h
        injection h with hwv
        subst hwv
        exact ⟨0, by simpa using hm, fun j hj => absurd hj (Nat.not_lt_zero j)⟩
      · rintro ⟨i, hi, hj⟩
        cases i with
        | zero =>
          rw [List.drop_zero, hm] at hi
          exact hi
        | succ i' =>
          have h0 := hj 0 (Nat.succ_pos i')
          rw [List.drop_zero, hm] at h0
          cases h0
    | none =>
      rw [ih v]
      constructor
      · rintro ⟨i, hi, hj⟩
        refine ⟨i + 1, by simpa using hi, ?_⟩
        intro j hj'
        cases j with
        | zero => simpa using hm
        | succ j' =>
          have := hj j' (by omega)
          simpa using this
      · rintro ⟨i, hi, hj⟩
        cases i with
        | zero =>
          rw [List.drop_zero, hm] at hi
          cases hi
        | succ i' =>
          refine ⟨i', by simpa using hi, ?_⟩
          intro j hj'
          have := hj (j + 1) (by omega)
          simpa using this

/-- Claim C3 as amended: field extraction first searches the whole text for
the single-quoted variant and only on failure for the double-quoted one, so
a single-quoted occurrence anywhere wins over a double-quoted one anywhere;
within one quoting variant the earliest-position occurrence wins; a field
with no occurrence of either variant yields `none` (which the parser turns
into "unknown", or leaves absent for `nodename`). -/
theorem c3_extract_single_quote_first (text field : String) :
    (extract_field text field =
      match scanFor field.data squote text.data with
      | some v => some (String.mk v)
      | none => Option.map String.mk (scanFor field.data dquote text.data))
    ∧ (∀ q v, scanFor field.data q text.data = some v ↔
        ∃ i, matchAt field.data q (text.data.drop i) = some v ∧
          ∀ j, j < i → matchAt field.data q (text.data.drop j) = none) := by
  constructor
  · rw [extract_field]
    cases hs : scanFor field.data squote text.data with
    | some v => rfl
    | none =>
      cases hd : scanFor field.data dquote text.data with
      | some v => rfl
      | none => rfl
  · intro q v
    exact scanFor_eq_some_iff field.data q text.data v

/-- Witness for the amended C3 at a concrete input: in
`sysname="a" sysname='b'` the single-quoted scan finds `b` at a position
before which no single-quoted match exists. -/
theorem c3_extract_single_quote_first_witness :
    ∃ i, matchAt "sysname".data squote (("sysname=\"a\" sysname='b'").data.drop i) =
        some "b".data ∧
      ∀ j, j < i →
        matchAt "sysname".data squote (("sysname=\"a\" sysname='b'").data.drop j) = none :=
  ((c3_extract_single_quote_first "sysname=\"a\" sysname='b'" "sysname").2 squote
    "b".data).mp (by decide)

/-- Claim C9 as amended: after a successful connect, `close()` is invoked at
least once on every exit path and at most twice; a successful query closes
exactly once; the count is two exactly when the handshake and command
succeeded and then either the in-sequence close failed or the received
output failed to parse (the handler then runs the extra, swallowed close);
a failure of the in-sequence close is classified and raised as the query's
error; the outcome never depends on the handler's close outcome. -/
theorem c9_close_discipline (tb : TransportBehavior) (p : String) (t : Nat)
    (h : tb.connect = none) :
    (1 ≤ (query_device tb p t).2 ∧ (query_device tb p t).2 ≤ 2)
    ∧ (∀ v, (query_device tb p t).1 = Except.ok v → (query_device tb p t).2 = 1)
    ∧ ((query_device tb p t).2 = 2 ↔
        tb.enterRawRepl = none ∧ tb.exitRawRepl = none ∧
          ∃ out, tb.execRaw = Except.ok out ∧
            (tb.closeA ≠ none ∨ isErrB (parse_uname_output (pyStrip out)) = true))
    ∧ (∀ out ce, tb.enterRawRepl = none → tb.execRaw = Except.ok out →
        tb.exitRawRepl = none → tb.closeA = some ce →
        (query_device tb p t).1 = Except.error (classify t ce))
    ∧ (∀ c, query_device { tb with closeB := c } p t = query_device tb p t) := by
  obtain ⟨co, en, ex, xi, ca, cb⟩ := tb
  replace h : co = none := h
  subst h
  cases en with
  | some e => simp [query_device]
  | none =>
    cases ex with
    | error e => simp [query_device]
    | ok out =>
      cases xi with
      | some e => simp [query_device]
      | none =>
        cases ca with
        | some ce =>
          refine ⟨by simp [query_device], by simp [query_device], ?_, ?_, fun c => rfl⟩
          · constructor
            · intro _
              exact ⟨rfl, rfl, out, rfl, Or.inl (by simp)⟩
            · intro _
              simp [query_device]
          · intro out' ce' _ hex _ hca
            injection hex with hout
            injection hca with hce
            subst hout
            subst hce
            simp [query_device]
        | none =>
          cases hp : parse_uname_output (pyStrip out) with
          | ok v =>
            refine ⟨by simp [query_device, hp], by simp [query_device, hp], ?_, ?_,
              fun c => rfl⟩
            · simp [query_device, hp, isErrB]
            · intro out' ce' _ _ _ hca
              simp at hca
          | error m =>
            refine ⟨by simp [query_device, hp], ?_, ?_, ?_, fun c => rfl⟩
            · intro v hv
              simp [query_device, hp] at hv
            · simp [query_device, hp, isErrB]
            · intro out' ce' _ _ _ hca
              simp at hca

/-- Witness for the amended C9 at a concrete input: a fully successful run
closes the transport at least once. -/
theorem c9_close_discipline_witness :
    1 ≤ (query_device tbAllOk "/dev/ttyACM0" 5).2 :=
  (c9_close_discipline tbAllOk "/dev/ttyACM0" 5 rfl).1.1

end MpyDevices
